import Mathlib

/-!
Verification of the fan-out/fan-in task dispatcher of the kai-ai repository.

The embedding models `src/agent.py` and `src/subagent.py`:

* `MorphAgent.split_subagents(num_agents, task_templates)` creates a
  `ThreadPoolExecutor(max_workers=num_agents)`, submits one
  `SubAgent(template).run` per template, and drains the futures with
  `concurrent.futures.as_completed`, appending one result dict per completed
  future, labelled `T{idx}` where `idx` counts completed futures from 1.
  `ThreadPoolExecutor` raises `ValueError("max_workers must be greater than 0")`
  when `num_agents < 1`, before anything is submitted.

  In the embedding the nondeterministic completion order of the futures is an
  explicit parameter `order : List Nat`: `order` lists the submission indices
  of the futures in the wall-clock order in which they complete, so a run of
  the Python code corresponds to some `order` that is a permutation of
  `List.range task_templates.length`.  A worker body that raises is modelled
  as `Except.error` carrying `str(exc)`; `future.result()` re-raising is the
  `try/except` in the loop, which converts it into an error dict.

* `SubAgent.run` returns the echo string `"SubAgent completed task: " ++ task`.

* `CodingAgent._generate_coding_tasks(task_type, num_agents, project_id)`
  dispatches on `task_type` over five generators, each of which slices a fixed
  five-entry catalog with Python's `tasks[:num_agents]`, and raises
  `ValueError(f"不支持的任务类型: {task_type}")` for an unknown type.

* The thread pool's concurrency discipline is modelled as a step relation
  `PoolStep` on `PoolState`: a pending task may start only while fewer than
  `max_workers` tasks are running, and a running task may finish at any time.
-/

namespace KaiAI

/-- A result dict produced by `MorphAgent.split_subagents`
(`src/agent.py` lines 89 and 91): `task_id` and `status` are always present;
the success branch stores the payload under `result`, the except branch stores
`str(exc)` under `error`.  Absent keys are `none`. -/
structure Outcome where
  task_id : String
  status : String
  result : Option String
  error : Option String
deriving Repr, DecidableEq

/-- Build the result dict for the `idx`-th completed future (`idx` counted
from 1), from the outcome of `future.result()`: the `try` branch on success,
the `except` branch on a raised exception. -/
def outcomeOf (idx : Nat) (r : Except String String) : Outcome :=
  match r with
  | .ok res => { task_id := "T" ++ toString idx, status := "success",
                 result := some res, error := none }
  | .error e => { task_id := "T" ++ toString idx, status := "error",
                  result := none, error := some e }

namespace SubAgent

/-- `SubAgent.run` (`src/subagent.py` lines 10-12): echoes the task. -/
def run (task : String) : String :=
  "SubAgent completed task: " ++ task

end SubAgent

/-- The worker actually dispatched by `split_subagents`
(`executor.submit(SubAgent(template).run)`): it never raises. -/
def subAgentWorker (template : String) : Except String String :=
  .ok (SubAgent.run template)

/-- The `for idx, future in enumerate(as_completed(futures), 1)` loop:
`start` is the running value of `idx`, `order` lists the submission indices of
the not-yet-drained futures in completion order; each iteration appends one
result dict.  `templates.getD i ""` looks up the template the `i`-th submitted
future was built from. -/
def collectResults (worker : String → Except String String)
    (templates : List String) : Nat → List Nat → List Outcome
  | _, [] => []
  | start, i :: rest =>
      outcomeOf start (worker (templates.getD i "")) ::
        collectResults worker templates (start + 1) rest

/-- `MorphAgent.split_subagents` (`src/agent.py` lines 78-92).
`Except.error` is the `ValueError` thrown by
`ThreadPoolExecutor(max_workers=num_agents)` when `num_agents < 1`; it escapes
the call before any future is submitted.  Otherwise one future per template is
submitted and the completion loop runs over `order`. -/
def split_subagents (num_agents : Int) (task_templates : List String)
    (worker : String → Except String String) (order : List Nat) :
    Except String (List Outcome) :=
  if num_agents < 1 then
    .error "max_workers must be greater than 0"
  else
    .ok (collectResults worker task_templates 1 order)

/-- Python's `xs[:k]` for an `int` bound `k`: a negative bound counts from the
end of the list. -/
def pyTake (k : Int) (xs : List α) : List α :=
  if k < 0 then xs.take ((xs.length : Int) + k).toNat else xs.take k.toNat

/-- The five-entry catalog of `_generate_review_tasks` (`src/agent.py`
lines 251-257). -/
def reviewTasksCatalog : List String :=
  ["审查代码规范与风格，检查PEP8合规性",
   "分析代码性能瓶颈，提出优化建议",
   "识别潜在安全漏洞与风险点",
   "评估代码可读性与可维护性",
   "检查错误处理与边界情况覆盖"]

/-- The five-entry catalog of `_generate_refactor_tasks` (`src/agent.py`
lines 262-268). -/
def refactorTasksCatalog : List String :=
  ["重构函数与类结构，提升代码复用性",
   "优化变量与函数命名，提高可读性",
   "简化复杂逻辑，拆分大型函数",
   "消除代码重复，提取公共功能",
   "优化导入结构，减少循环依赖"]

/-- The five-entry catalog of `_generate_test_tasks` (`src/agent.py`
lines 273-279). -/
def testTasksCatalog : List String :=
  ["编写单元测试，覆盖核心功能",
   "设计集成测试，验证模块交互",
   "创建边界条件与异常测试用例",
   "实现性能测试，建立基准指标",
   "生成测试报告与覆盖率分析"]

/-- The five-entry catalog of `_generate_document_tasks` (`src/agent.py`
lines 284-290). -/
def documentTasksCatalog : List String :=
  ["编写API文档，说明函数与类用法",
   "创建项目 README，介绍整体功能",
   "生成开发指南，指导环境配置与开发流程",
   "编写用户手册，说明系统使用方法",
   "整理架构设计文档，描述系统结构"]

/-- The five-entry catalog of `_generate_debug_tasks` (`src/agent.py`
lines 295-301). -/
def debugTasksCatalog : List String :=
  ["定位运行时错误，分析堆栈跟踪",
   "排查逻辑错误，验证算法正确性",
   "检查数据处理错误，验证输入输出",
   "分析性能问题，识别瓶颈代码",
   "验证并发场景下的线程安全问题"]

/-- `CodingAgent._generate_review_tasks`: `tasks[:num_agents]`. -/
def _generate_review_tasks (num_agents : Int) (_project_id : Option String) :
    List String :=
  pyTake num_agents reviewTasksCatalog

/-- `CodingAgent._generate_refactor_tasks`: `tasks[:num_agents]`. -/
def _generate_refactor_tasks (num_agents : Int) (_project_id : Option String) :
    List String :=
  pyTake num_agents refactorTasksCatalog

/-- `CodingAgent._generate_test_tasks`: `tasks[:num_agents]`. -/
def _generate_test_tasks (num_agents : Int) (_project_id : Option String) :
    List String :=
  pyTake num_agents testTasksCatalog

/-- `CodingAgent._generate_document_tasks`: `tasks[:num_agents]`. -/
def _generate_document_tasks (num_agents : Int) (_project_id : Option String) :
    List String :=
  pyTake num_agents documentTasksCatalog

/-- `CodingAgent._generate_debug_tasks`: `tasks[:num_agents]`. -/
def _generate_debug_tasks (num_agents : Int) (_project_id : Option String) :
    List String :=
  pyTake num_agents debugTasksCatalog

/-- `CodingAgent._generate_coding_tasks` (`src/agent.py` lines 234-247): the
`task_generators` dict lookup, raising `ValueError` on an unknown key.  The
raise is `Except.error`. -/
def _generate_coding_tasks (task_type : String) (num_agents : Int)
    (project_id : Option String) : Except String (List String) :=
  if task_type = "code_review" then
    .ok (_generate_review_tasks num_agents project_id)
  else if task_type = "refactor" then
    .ok (_generate_refactor_tasks num_agents project_id)
  else if task_type = "test" then
    .ok (_generate_test_tasks num_agents project_id)
  else if task_type = "document" then
    .ok (_generate_document_tasks num_agents project_id)
  else if task_type = "debug" then
    .ok (_generate_debug_tasks num_agents project_id)
  else
    .error ("不支持的任务类型: " ++ task_type)

/-- The catalog a given `task_type` slices, for stating properties of
`_generate_coding_tasks`. -/
def taskCatalog (task_type : String) : List String :=
  if task_type = "code_review" then reviewTasksCatalog
  else if task_type = "refactor" then refactorTasksCatalog
  else if task_type = "test" then testTasksCatalog
  else if task_type = "document" then documentTasksCatalog
  else if task_type = "debug" then debugTasksCatalog
  else []

/-- The five recognised task types of `_generate_coding_tasks`. -/
def codingTaskTypes : List String :=
  ["code_review", "refactor", "test", "document", "debug"]

/-- State of the `ThreadPoolExecutor` during one `split_subagents` call:
tasks queued but not yet picked up by a pool thread, tasks currently executing
on a pool thread, and tasks whose execution has ended. -/
structure PoolState where
  pending : List String
  running : List String
  finished : List String
deriving Repr, DecidableEq

/-- One scheduling event of a `ThreadPoolExecutor` with `c = max_workers`:
a queued task starts only while fewer than `c` tasks are executing, and a
running task may end at any time. -/
inductive PoolStep (c : Nat) : PoolState → PoolState → Prop where
  | start (t : String) (pending running finished : List String)
      (h : running.length < c) :
      PoolStep c ⟨t :: pending, running, finished⟩
                 ⟨pending, t :: running, finished⟩
  | stop (t : String) (pending r1 r2 finished : List String) :
      PoolStep c ⟨pending, r1 ++ t :: r2, finished⟩
                 ⟨pending, r1 ++ r2, t :: finished⟩

/-- Pool state right after `split_subagents` submits its futures: all
templates queued, nothing running. -/
def initState (templates : List String) : PoolState :=
  ⟨templates, [], []⟩

/-- The pool states a `split_subagents` call with budget `c` over `templates`
can pass through. -/
def Reachable (c : Nat) (templates : List String) (s : PoolState) : Prop :=
  Relation.ReflTransGen (PoolStep c) (initState templates) s

/-- Number of tasks a pool state accounts for, in any phase. -/
def taskCount (s : PoolState) : Nat :=
  s.pending.length + s.running.length + s.finished.length

/-- A worker used in concrete scenarios: fails on template `"b"` with message
`"boom"`, succeeds elsewhere with the `-done` payload (the concrete scenario
of the specification's testable properties). -/
def demoWorker (t : String) : Except String String :=
  if t = "b" then .error "boom" else .ok (t ++ "-done")

lemma outcomeOf_task_id (idx : Nat) (r : Except String String) :
    (outcomeOf idx r).task_id = "T" ++ toString idx := by
  cases r <;> rfl

lemma collectResults_length (w : String → Except String String)
    (t : List String) : ∀ (s : Nat) (order : List Nat),
    (collectResults w t s order).length = order.length
  | _, [] => rfl
  | s, _ :: rest => by
      simp [collectResults, collectResults_length w t (s + 1) rest]

lemma collectResults_get (w : String → Except String String)
    (t : List String) : ∀ (order : List Nat) (s j : Nat)
    (hj : j < order.length)
    (hj' : j < (collectResults w t s order).length),
    (collectResults w t s order).get ⟨j, hj'⟩ =
      outcomeOf (s + j) (w (t.getD (order.get ⟨j, hj⟩) ""))
  | [], s, j, hj, _ => absurd hj (by simp)
  | i :: rest, s, 0, hj, hj' => by simp [collectResults]
  | i :: rest, s, j + 1, hj, hj' => by
      have := collectResults_get w t rest (s + 1) j (by simpa using hj)
        (by simpa [collectResults] using hj')
      simpa [collectResults, Nat.add_assoc, Nat.add_comm 1 j] using this

lemma collectResults_map_task_id (w : String → Except String String)
    (t : List String) : ∀ (s : Nat) (order : List Nat),
    (collectResults w t s order).map Outcome.task_id =
      (List.range order.length).map (fun j => "T" ++ toString (s + j))
  | _, [] => rfl
  | s, i :: rest => by
      simp only [collectResults, List.map_cons, outcomeOf_task_id,
        collectResults_map_task_id w t (s + 1) rest, List.length_cons,
        List.range_succ_eq_map, List.map_map]
      simp only [List.cons.injEq]
      refine ⟨by simp, ?_⟩
      apply List.map_congr_left
      intro j _
      have hsj : s + 1 + j = s + j.succ := by omega
      simp [Function.comp, hsj]

lemma mem_collectResults (w : String → Except String String)
    (t : List String) : ∀ (s : Nat) (order : List Nat) (o : Outcome),
    o ∈ collectResults w t s order →
    ∃ idx i, i ∈ order ∧ o = outcomeOf idx (w (t.getD i ""))
  | s, [], o, h => absurd h (by simp [collectResults])
  | s, i :: rest, o, h => by
      rcases (List.mem_cons).mp h with h1 | h2
      · exact ⟨s, i, by simp, h1⟩
      · obtain ⟨idx, i', hi', ho⟩ := mem_collectResults w t (s + 1) rest o h2
        exact ⟨idx, i', by simp [hi'], ho⟩

lemma split_subagents_ok (num_agents : Int) (templates : List String)
    (worker : String → Except String String) (order : List Nat)
    (h1 : 1 ≤ num_agents) :
    split_subagents num_agents templates worker order =
      .ok (collectResults worker templates 1 order) := by
  have hn : ¬ num_agents < 1 := by omega
  simp [split_subagents, hn]


/-- C6: with `num_agents < 1` the `ThreadPoolExecutor` constructor raises a
`ValueError` out of `split_subagents` before anything is submitted; no
outcome list is produced. -/
theorem split_subagents_invalid_concurrency (num_agents : Int)
    (templates : List String) (worker : String → Except String String)
    (order : List Nat) (h : num_agents < 1) :
    split_subagents num_agents templates worker order =
      .error "max_workers must be greater than 0" := by
  simp [split_subagents, h]

theorem split_subagents_invalid_concurrency_witness :
    split_subagents 0 ["a", "b"] subAgentWorker [] =
      .error "max_workers must be greater than 0" :=
  split_subagents_invalid_concurrency 0 ["a", "b"] subAgentWorker []
    (by decide)

/-- C5: with a valid budget and no templates, `split_subagents` returns the
empty outcome list, and the value is independent of the worker (no worker is
invoked). -/
theorem split_subagents_empty_input (num_agents : Int)
    (worker worker' : String → Except String String) (order : List Nat)
    (h1 : 1 ≤ num_agents)
    (h2 : order.Perm (List.range ([] : List String).length)) :
    split_subagents num_agents [] worker order = .ok [] ∧
      split_subagents num_agents [] worker order =
        split_subagents num_agents [] worker' order := by
  have horder : order = [] := by simpa using h2
  subst horder
  rw [split_subagents_ok _ _ _ _ h1, split_subagents_ok _ _ _ _ h1]
  exact ⟨rfl, rfl⟩

theorem split_subagents_empty_input_witness :
    split_subagents 1 [] subAgentWorker [] = .ok [] ∧
      split_subagents 1 [] subAgentWorker [] =
        split_subagents 1 [] demoWorker [] :=
  split_subagents_empty_input 1 subAgentWorker demoWorker []
    (by decide) (by simp)

/-- C2: for every valid budget and every completion order, `split_subagents`
returns exactly one outcome per submitted template, and the labels read
`T1..Tn` in order, with no duplicates and no gaps. -/
theorem split_subagents_completeness_and_labels (num_agents : Int)
    (templates : List String) (worker : String → Except String String)
    (order : List Nat) (h1 : 1 ≤ num_agents)
    (h2 : order.Perm (List.range templates.length)) :
    ∃ results, split_subagents num_agents templates worker order = .ok results ∧
      results.length = templates.length ∧
      results.map Outcome.task_id =
        (List.range templates.length).map (fun i => "T" ++ toString (i + 1)) := by
  refine ⟨collectResults worker templates 1 order,
    split_subagents_ok _ _ _ _ h1, ?_, ?_⟩
  · rw [collectResults_length, h2.length_eq, List.length_range]
  · rw [collectResults_map_task_id, h2.length_eq, List.length_range]
    apply List.map_congr_left
    intro j _
    simp [Nat.add_comm 1 j]

theorem split_subagents_completeness_and_labels_witness :
    ∃ results, split_subagents 2 ["a", "b"] subAgentWorker [1, 0] =
        .ok results ∧
      results.length = (["a", "b"] : List String).length ∧
      results.map Outcome.task_id =
        (List.range (["a", "b"] : List String).length).map
          (fun i => "T" ++ toString (i + 1)) :=
  split_subagents_completeness_and_labels 2 ["a", "b"] subAgentWorker [1, 0]
    (by decide) (by decide)

/-- C1: evaluating the dispatcher at a completion order in which the second
submitted task finishes first shows that labels follow completion order:
label `T1` carries the payload of template `"b"`, the second submitted
template, not of template `"a"`. -/
theorem split_subagents_completion_order_at_swap :
    split_subagents 2 ["a", "b"] subAgentWorker [1, 0] =
      .ok [{ task_id := "T1", status := "success",
             result := some (SubAgent.run "b"), error := none },
           { task_id := "T2", status := "success",
             result := some (SubAgent.run "a"), error := none }] ∧
      SubAgent.run "b" ≠ SubAgent.run "a" :=
  ⟨rfl, by decide⟩
/-- C3: under a valid budget, every worker error is captured: the call
returns `.ok`, and each submitted template has an outcome whose status and
detail field match whether the worker raised on that template, carrying the
exception description when it did. -/
theorem split_subagents_failure_isolation (num_agents : Int)
    (templates : List String) (worker : String → Except String String)
    (order : List Nat) (h1 : 1 ≤ num_agents)
    (h2 : order.Perm (List.range templates.length)) :
    ∃ results, split_subagents num_agents templates worker order = .ok results ∧
      ∀ i, ∀ hi : i < templates.length, ∃ j, ∃ hj : j < results.length,
        (∀ e, worker (templates.get ⟨i, hi⟩) = .error e →
            (results.get ⟨j, hj⟩).status = "error" ∧
            (results.get ⟨j, hj⟩).error = some e) ∧
        ∀ r, worker (templates.get ⟨i, hi⟩) = .ok r →
            (results.get ⟨j, hj⟩).status = "success" ∧
            (results.get ⟨j, hj⟩).result = some r := by
  refine ⟨collectResults worker templates 1 order,
    split_subagents_ok _ _ _ _ h1, ?_⟩
  intro i hi
  have hmem : i ∈ order := h2.mem_iff.mpr (List.mem_range.mpr hi)
  obtain ⟨⟨j, hj⟩, hij⟩ := List.mem_iff_get.mp hmem
  have hj2 : j < (collectResults worker templates 1 order).length := by
    rw [collectResults_length]; exact hj
  have hget : (collectResults worker templates 1 order).get ⟨j, hj2⟩ =
      outcomeOf (1 + j) (worker (templates.get ⟨i, hi⟩)) := by
    rw [collectResults_get worker templates order 1 j hj hj2, hij,
      List.getD_eq_getElem templates "" hi]
    rfl
  refine ⟨j, hj2, ?_, ?_⟩
  · intro e he
    rw [hget, he]
    exact ⟨rfl, rfl⟩
  · intro r hr
    rw [hget, hr]
    exact ⟨rfl, rfl⟩

theorem split_subagents_failure_isolation_witness :
    ∃ results,
      split_subagents 2 ["a", "b", "c"] demoWorker [2, 0, 1] = .ok results ∧
      ∀ i, ∀ hi : i < (["a", "b", "c"] : List String).length,
        ∃ j, ∃ hj : j < results.length,
        (∀ e, demoWorker ((["a", "b", "c"] : List String).get ⟨i, hi⟩) =
              .error e →
            (results.get ⟨j, hj⟩).status = "error" ∧
            (results.get ⟨j, hj⟩).error = some e) ∧
        ∀ r, demoWorker ((["a", "b", "c"] : List String).get ⟨i, hi⟩) =
              .ok r →
            (results.get ⟨j, hj⟩).status = "success" ∧
            (results.get ⟨j, hj⟩).result = some r :=
  split_subagents_failure_isolation 2 ["a", "b", "c"] demoWorker [2, 0, 1]
    (by decide) (by decide)

/-- C4: every outcome ever returned by `split_subagents` has a result payload
exactly when its status is success and an error detail exactly when its
status is error; never both and never neither. -/
theorem split_subagents_outcome_fields (num_agents : Int)
    (templates : List String) (worker : String → Except String String)
    (order : List Nat) (results : List Outcome) (o : Outcome)
    (h : split_subagents num_agents templates worker order = .ok results)
    (ho : o ∈ results) :
    (o.status = "success" ∧ (∃ r, o.result = some r) ∧ o.error = none) ∨
      (o.status = "error" ∧ o.result = none ∧ ∃ e, o.error = some e) := by
  have hres : results = collectResults worker templates 1 order := by
    by_cases hn : num_agents < 1
    · simp [split_subagents, hn] at h
    · simp [split_subagents, hn] at h
      exact h.symm
  subst hres
  obtain ⟨idx, i, _, ho'⟩ := mem_collectResults worker templates 1 order o ho
  subst ho'
  cases hw : worker (templates.getD i "") with
  | error e => right; simp [outcomeOf, hw]
  | ok r => left; simp [outcomeOf, hw]

theorem split_subagents_outcome_fields_witness :
    ((Outcome.mk "T1" "success" (some "a-done") none).status = "success" ∧
        (∃ r, (Outcome.mk "T1" "success" (some "a-done") none).result =
          some r) ∧
        (Outcome.mk "T1" "success" (some "a-done") none).error = none) ∨
      ((Outcome.mk "T1" "success" (some "a-done") none).status = "error" ∧
        (Outcome.mk "T1" "success" (some "a-done") none).result = none ∧
        ∃ e, (Outcome.mk "T1" "success" (some "a-done") none).error =
          some e) :=
  split_subagents_outcome_fields 1 ["a", "b"] demoWorker [0, 1]
    [Outcome.mk "T1" "success" (some "a-done") none,
     Outcome.mk "T2" "error" none (some "boom")]
    (Outcome.mk "T1" "success" (some "a-done") none) rfl (by decide)

/-- C10: `SubAgent.run` is the total echo function, and consequently every
outcome of a `split_subagents` dispatch over these workers is a success whose
payload is the echo of one of the submitted templates. -/
theorem split_subagents_subagent_success (num_agents : Int)
    (templates : List String) (order : List Nat) (h1 : 1 ≤ num_agents)
    (h2 : order.Perm (List.range templates.length)) :
    (∀ task, SubAgent.run task = "SubAgent completed task: " ++ task) ∧
      ∃ results,
        split_subagents num_agents templates subAgentWorker order =
          .ok results ∧
        ∀ o ∈ results, o.status = "success" ∧
          ∃ t ∈ templates,
            o.result = some ("SubAgent completed task: " ++ t) := by
  refine ⟨fun _ => rfl, collectResults subAgentWorker templates 1 order,
    split_subagents_ok _ _ _ _ h1, ?_⟩
  intro o ho
  obtain ⟨idx, i, hi, ho'⟩ :=
    mem_collectResults subAgentWorker templates 1 order o ho
  have hit : i < templates.length := List.mem_range.mp (h2.mem_iff.mp hi)
  have htem : templates.getD i "" ∈ templates := by
    rw [List.getD_eq_getElem templates "" hit]
    exact List.getElem_mem hit
  subst ho'
  exact ⟨rfl, templates.getD i "", htem, rfl⟩

theorem split_subagents_subagent_success_witness :
    (∀ task, SubAgent.run task = "SubAgent completed task: " ++ task) ∧
      ∃ results,
        split_subagents 2 ["a", "b"] subAgentWorker [1, 0] = .ok results ∧
        ∀ o ∈ results, o.status = "success" ∧
          ∃ t ∈ (["a", "b"] : List String),
            o.result = some ("SubAgent completed task: " ++ t) :=
  split_subagents_subagent_success 2 ["a", "b"] [1, 0] (by decide) (by decide)
lemma poolStep_running_le {c : Nat} {s s' : PoolState} (h : PoolStep c s s')
    (hs : s.running.length ≤ c) : s'.running.length ≤ c := by
  cases h with
  | start t pending running finished hlt => simp; omega
  | stop t pending r1 r2 finished => simp at hs ⊢; omega

lemma poolStep_taskCount {c : Nat} {s s' : PoolState} (h : PoolStep c s s') :
    taskCount s' = taskCount s := by
  cases h with
  | start t pending running finished hlt => simp [taskCount]; omega
  | stop t pending r1 r2 finished => simp [taskCount]; omega

/-- C8: in any state the thread pool can reach while running a batch, the
number of simultaneously executing workers never exceeds
`min max_workers n`. -/
theorem pool_concurrency_bound (c : Nat) (templates : List String)
    (s : PoolState) (h : Reachable c templates s) :
    s.running.length ≤ min c templates.length := by
  have key : s.running.length ≤ c ∧ taskCount s = templates.length := by
    induction h with
    | refl => simp [initState, taskCount]
    | tail hst step ih =>
        exact ⟨poolStep_running_le step ih.1,
          (poolStep_taskCount step).trans ih.2⟩
  have hn : s.running.length ≤ templates.length := by
    have hcount := key.2
    unfold taskCount at hcount
    omega
  exact le_min key.1 hn

theorem pool_concurrency_bound_witness :
    (initState ["a"]).running.length ≤ min 2 (["a"] : List String).length :=
  pool_concurrency_bound 2 ["a"] (initState ["a"]) Relation.ReflTransGen.refl

lemma pyTake_of_nonneg {α : Type} (k : Int) (hk : 0 ≤ k) (xs : List α) :
    pyTake k xs = xs.take k.toNat := by
  have hneg : ¬ k < 0 := by omega
  simp [pyTake, hneg]

lemma take_catalog_min {α : Type} (xs : List α) (hxs : xs.length = 5)
    (n : Nat) : xs.take n = xs.take (min n 5) := by
  conv_rhs => rw [← List.take_take]
  rw [← hxs, List.take_length]

/-- C9: for a non-negative requested count, `_generate_coding_tasks` returns
the first `min(num_agents, 5)` entries of the five-entry catalog of each of
the five recognised task types, and raises `ValueError` on any other type. -/
theorem generate_coding_tasks_catalog (task_type : String) (num_agents : Int)
    (project_id : Option String) (h : 0 ≤ num_agents) :
    (task_type ∈ codingTaskTypes →
      _generate_coding_tasks task_type num_agents project_id =
        .ok ((taskCatalog task_type).take (min num_agents.toNat 5)) ∧
      (taskCatalog task_type).length = 5) ∧
    (task_type ∉ codingTaskTypes →
      _generate_coding_tasks task_type num_agents project_id =
        .error ("不支持的任务类型: " ++ task_type)) := by
  constructor
  · intro hmem
    simp only [codingTaskTypes, List.mem_cons, List.mem_singleton,
      List.not_mem_nil, or_false] at hmem
    rcases hmem with rfl | rfl | rfl | rfl | rfl
    · refine ⟨?_, by decide⟩
      have h1 : _generate_coding_tasks "code_review" num_agents project_id =
          .ok (pyTake num_agents reviewTasksCatalog) := rfl
      have h2 : taskCatalog "code_review" = reviewTasksCatalog := rfl
      rw [h1, h2, pyTake_of_nonneg num_agents h,
        take_catalog_min reviewTasksCatalog (by decide) num_agents.toNat]
    · refine ⟨?_, by decide⟩
      have h1 : _generate_coding_tasks "refactor" num_agents project_id =
          .ok (pyTake num_agents refactorTasksCatalog) := rfl
      have h2 : taskCatalog "refactor" = refactorTasksCatalog := rfl
      rw [h1, h2, pyTake_of_nonneg num_agents h,
        take_catalog_min refactorTasksCatalog (by decide) num_agents.toNat]
    · refine ⟨?_, by decide⟩
      have h1 : _generate_coding_tasks "test" num_agents project_id =
          .ok (pyTake num_agents testTasksCatalog) := rfl
      have h2 : taskCatalog "test" = testTasksCatalog := rfl
      rw [h1, h2, pyTake_of_nonneg num_agents h,
        take_catalog_min testTasksCatalog (by decide) num_agents.toNat]
    · refine ⟨?_, by decide⟩
      have h1 : _generate_coding_tasks "document" num_agents project_id =
          .ok (pyTake num_agents documentTasksCatalog) := rfl
      have h2 : taskCatalog "document" = documentTasksCatalog := rfl
      rw [h1, h2, pyTake_of_nonneg num_agents h,
        take_catalog_min documentTasksCatalog (by decide) num_agents.toNat]
    · refine ⟨?_, by decide⟩
      have h1 : _generate_coding_tasks "debug" num_agents project_id =
          .ok (pyTake num_agents debugTasksCatalog) := rfl
      have h2 : taskCatalog "debug" = debugTasksCatalog := rfl
      rw [h1, h2, pyTake_of_nonneg num_agents h,
        take_catalog_min debugTasksCatalog (by decide) num_agents.toNat]
  · intro hmem
    simp only [codingTaskTypes, List.mem_cons, List.mem_singleton,
      List.not_mem_nil, or_false, not_or] at hmem
    obtain ⟨e1, e2, e3, e4, e5⟩ := hmem
    simp [_generate_coding_tasks, e1, e2, e3, e4, e5]

theorem generate_coding_tasks_catalog_witness :
    ("code_review" ∈ codingTaskTypes →
      _generate_coding_tasks "code_review" 2 none =
        .ok ((taskCatalog "code_review").take (min (Int.toNat 2) 5)) ∧
      (taskCatalog "code_review").length = 5) ∧
    ("code_review" ∉ codingTaskTypes →
      _generate_coding_tasks "code_review" 2 none =
        .error ("不支持的任务类型: " ++ "code_review")) :=
  generate_coding_tasks_catalog "code_review" 2 none (by decide)

end KaiAI
